import Mathlib

/-!
Verification development for the booking-saver repository.

The Python modules `sheets.py`, `db.py`, `scraper.py`, `google_maps_service.py`
and `bot.py` are shallowly embedded below.  Python floats are modelled as exact
rationals (every arithmetic step used by the claims is exact at double
precision on the inputs considered), Python strings as Lean `String`,
missing/None values as `Option`, and uncaught Python exceptions as `Except`.
-/

/-! ### Small string helpers (single-character `str.replace`, `str.lower`, `in`) -/

/-- `s.replace(a, b)` for a single-character pattern and replacement. -/
def replaceChar (s : String) (a b : Char) : String :=
  ⟨s.data.map (fun c => if c = a then b else c)⟩

/-- `s.replace(a, "")` for a single-character pattern. -/
def removeChar (s : String) (a : Char) : String :=
  ⟨s.data.filter (fun c => c ≠ a)⟩

/-- `s.lower()` (ASCII case mapping; all strings reaching it are ASCII). -/
def lowerStr (s : String) : String :=
  ⟨s.data.map Char.toLower⟩

/-- Bool test: `pat` occurs as a contiguous substring of the list. -/
def hasSub (pat : List Char) : List Char → Bool
  | [] => pat.isEmpty
  | c :: rest => pat.isPrefixOf (c :: rest) || hasSub pat rest

/-- Python `sub in s`. -/
def strContains (s sub : String) : Bool :=
  hasSub sub.data s.data

/-- Characters matched by Python's regex `\d` on the inputs of this program
(ASCII decimal digits). -/
def isReDigit (c : Char) : Bool := c.isDigit

/-- Characters matched by Python's regex `\s` (Unicode mode): ASCII whitespace
plus the non-breaking space, the only Unicode whitespace these pages produce. -/
def isReSpace (c : Char) : Bool :=
  c = ' ' || c = '\t' || c = '\n' || c = '\r' ||
  c.toNat = 11 || c.toNat = 12 || c = '\u00A0'

/-- Numeric value of a list of decimal digits. -/
def digitsToNat (ds : List Char) : ℕ :=
  ds.foldl (fun a c => a * 10 + (c.toNat - '0'.toNat)) 0

/-! ### Python `int(...)` and `float(...)` on decimal strings

`int` / `float` applied to the strings this program builds (digit runs with
optional sign, optional single decimal point for `float`).  `none` models the
`ValueError` raised on any other string.  The exponent / `inf` / `nan` forms of
the Python grammar are unreachable from this program's inputs. -/

/-- Strip leading and trailing whitespace (Python `int`/`float` do this). -/
def stripWs (cs : List Char) : List Char :=
  ((cs.dropWhile isReSpace).reverse.dropWhile isReSpace).reverse

/-- `int(s)`: optional sign followed by a non-empty digit run. -/
def pyIntParse (s : String) : Option ℤ :=
  let cs := stripWs s.data
  let core : List Char → Option ℤ := fun ds =>
    if ds.isEmpty || ¬ds.all isReDigit then none else some (digitsToNat ds : ℤ)
  match cs with
  | '+' :: rest => core rest
  | '-' :: rest => (core rest).map Neg.neg
  | _ => core cs

/-- Unsigned decimal part of `float(s)`: digits, optionally `.` and more
digits, with at least one digit overall.  The value is returned as
(mantissa digits, number of fractional digits), i.e. `mantissa / 10 ^ k`. -/
def parseDecimalRep (cs : List Char) : Option (ℕ × ℕ) :=
  let ip := cs.takeWhile isReDigit
  let rest := cs.drop ip.length
  match rest with
  | [] => if ip.isEmpty then none else some (digitsToNat ip, 0)
  | '.' :: frac =>
    if frac.all isReDigit && ¬(ip.isEmpty && frac.isEmpty) then
      some (digitsToNat (ip ++ frac), frac.length)
    else none
  | _ => none

/-- Sign and decimal representation parsed by `float(s)`. -/
def parsePyFloatRep (s : String) : Option (Bool × ℕ × ℕ) :=
  match stripWs s.data with
  | '+' :: rest => (parseDecimalRep rest).map (fun p => (false, p))
  | '-' :: rest => (parseDecimalRep rest).map (fun p => (true, p))
  | cs => (parseDecimalRep cs).map (fun p => (false, p))

/-- `float(s)` on the decimal strings this program produces: the exact
rational value `±mantissa / 10 ^ k` of the decimal literal. -/
def parsePyFloat (s : String) : Option ℚ :=
  (parsePyFloatRep s).map (fun p =>
    (if p.1 then -1 else 1) * (p.2.1 : ℚ) / (10 : ℚ) ^ p.2.2)

/-! ### Python `round(x, n)` (round-half-to-even) -/

/-- Round to the nearest integer, ties to even — Python's rounding mode. -/
def roundHalfEven (q : ℚ) : ℤ :=
  let f := ⌊q⌋
  let r := q - (f : ℚ)
  if r < 1/2 then f
  else if (1 : ℚ)/2 < r then f + 1
  else if f % 2 = 0 then f else f + 1

/-- Python `round(q, n)` on the exact rational value. -/
def pyRound (q : ℚ) (n : ℕ) : ℚ :=
  (roundHalfEven (q * (10 : ℚ) ^ n) : ℚ) / (10 : ℚ) ^ n

/-! ### sheets.py — `append_row` (price per night, overall score)

Only the fields `append_row` reads for its derived values are modelled; the
remaining record entries (name, link, address, ...) are copied verbatim into
the spreadsheet row and play no part in any computation. -/

structure SheetRec where
  review_score : Option ℚ
  reviews_count : Option ℕ
  google_review_score : Option ℚ
  google_reviews_count : Option ℕ
  cancellation : Option String
  nights_adults : Option String
  price : Option String
deriving DecidableEq

/-- Python truthiness of `rec.get(k)` for a float field: present and nonzero. -/
def qTruthy : Option ℚ → Bool
  | none => false
  | some v => v != 0

/-- Python truthiness of `rec.get(k)` for an int field: present and nonzero. -/
def nTruthy : Option ℕ → Bool
  | none => false
  | some v => v != 0

/-- `booking_score = float(rec.get("review_score", 0)) if rec.get("review_score") else 0`. -/
def bookingScore (r : SheetRec) : ℚ :=
  if qTruthy r.review_score then r.review_score.getD 0 else 0

/-- `booking_count = int(rec.get("reviews_count", 0)) if rec.get("reviews_count") else 0`. -/
def bookingCount (r : SheetRec) : ℕ :=
  if nTruthy r.reviews_count then r.reviews_count.getD 0 else 0

/-- `google_score = float(rec.get("google_review_score", 0)) if rec.get("google_review_score") else 0`. -/
def googleScore (r : SheetRec) : ℚ :=
  if qTruthy r.google_review_score then r.google_review_score.getD 0 else 0

/-- `google_count = int(rec.get("google_reviews_count", 0)) if rec.get("google_reviews_count") else 0`. -/
def googleCount (r : SheetRec) : ℕ :=
  if nTruthy r.google_reviews_count then r.google_reviews_count.getD 0 else 0

/-- `booking_score_adj = booking_score if booking_score else 0`. -/
def bookingScoreAdj (r : SheetRec) : ℚ :=
  if bookingScore r ≠ 0 then bookingScore r else 0

/-- `google_score_adj = google_score * 2 if google_score else 0`. -/
def googleScoreAdj (r : SheetRec) : ℚ :=
  if googleScore r ≠ 0 then googleScore r * 2 else 0

/-- `booking_weight = min(booking_count / 100, 1) if booking_count else 0`. -/
def bookingWeight (r : SheetRec) : ℚ :=
  if bookingCount r ≠ 0 then min ((bookingCount r : ℚ) / 100) 1 else 0

/-- `google_weight = min(google_count / 200, 1) if google_count else 0`. -/
def googleWeight (r : SheetRec) : ℚ :=
  if googleCount r ≠ 0 then min ((googleCount r : ℚ) / 200) 1 else 0

/-- `cancellation = rec.get("cancellation", "").lower()` followed by
`cancellation == "yes" or "free" in cancellation`. -/
def freeCancel (r : SheetRec) : Bool :=
  let c := lowerStr (r.cancellation.getD "")
  c == "yes" || strContains c "free"

/-- The four-way `if booking_score and google_score: ... elif ... else` chain of
`append_row` before the cancellation bonus.  `Except.error ()` models the
uncaught `ZeroDivisionError` of the weighted-average division when
`booking_weight + google_weight` is `0`. -/
def rawOverall (r : SheetRec) : Except Unit ℚ :=
  if bookingScore r ≠ 0 ∧ googleScore r ≠ 0 then
    if bookingWeight r + googleWeight r = 0 then .error ()
    else .ok ((bookingScoreAdj r * bookingWeight r + googleScoreAdj r * googleWeight r)
              / (bookingWeight r + googleWeight r))
  else if bookingScore r ≠ 0 then .ok (bookingScoreAdj r * (9/10))
  else if googleScore r ≠ 0 then .ok (googleScoreAdj r)
  else .ok 0

/-- `overall_score = round(max(min(overall_score, 10), 1) if overall_score else 0, 1)`. -/
def finalizeScore (o : ℚ) : ℚ :=
  if o = 0 then 0 else pyRound (max (min o 10) 1) 1

/-- The overall score `append_row` computes: raw branch value, plus the 0.5
free-cancellation bonus, then the clamp-and-round line. -/
def overallScoreVal (r : SheetRec) : Except Unit ℚ :=
  (rawOverall r).map (fun o => finalizeScore (o + (if freeCancel r then 1/2 else 0)))

/-- The spreadsheet cell `overall_score if overall_score else ""`:
`none` models the empty cell. -/
def overallCell (r : SheetRec) : Except Unit (Option ℚ) :=
  (overallScoreVal r).map (fun o => if o = 0 then none else some o)

/-! #### price per night -/

/-- One attempt of `re.search(r"(\d+)\s+nights", s)` anchored at the start of
`cs`: a maximal digit run, at least one `\s`, then the literal `nights`.
(The greedy `\d+` cannot usefully backtrack: shortening it leaves a digit
where `\s` must match; likewise `\s+` is followed by a letter.) -/
def matchNightsAt (cs : List Char) : Option ℕ :=
  let ds := cs.takeWhile isReDigit
  if ds.isEmpty then none
  else
    let rest := cs.drop ds.length
    let ws := rest.takeWhile isReSpace
    if ws.isEmpty then none
    else if "nights".data.isPrefixOf (rest.drop ws.length) then some (digitsToNat ds)
    else none

/-- Leftmost match of `(\d+)\s+nights`, as `re.search` finds it. -/
def findNightsCount : List Char → Option ℕ
  | [] => none
  | c :: rest =>
    match matchNightsAt (c :: rest) with
    | some n => some n
    | none => findNightsCount rest

/-- `m = re.search(r"(\d+)\s+nights", rec.get("nights_adults", "0 nights"))`
then `nights = int(m.group(1)) if m else 1`. -/
def parsedNights (r : SheetRec) : Option ℕ :=
  findNightsCount (r.nights_adults.getD "0 nights").data

/-- The `price_per_night` computation of `append_row`: `none` models the empty
cell produced by the bare `except:` (a `ValueError` from `float`, or the
`ZeroDivisionError` when the parsed night count is `0`). -/
def pricePerNight (r : SheetRec) : Option ℚ :=
  let nights : ℕ := (parsedNights r).getD 1
  match parsePyFloat (removeChar (r.price.getD "0") ',') with
  | none => none
  | some p => if nights = 0 then none else some (pyRound (p / (nights : ℚ)) 2)

/-! ### db.py — persisted store

The `listings` table is modelled as a list of rows.  Only the primary-key
columns appear in `DBRow`: the remaining columns of the schema are plain data
that never influence the `INSERT OR IGNORE` conflict test or the
`listing_exists` query.  `hotel_id` is nullable (the scraper always emits
`None` for it); per the SQLite documentation, `PRIMARY KEY` columns may hold
`NULL` and `NULL` values are distinct from every value including other
`NULL`s, so a row whose `hotel_id` is `NULL` never conflicts with anything. -/

structure DBRow where
  hotel_id : Option ℤ
  link : String
  checkin : String
  checkout : String
deriving DecidableEq

/-- Whether two rows collide on the table's declared
`PRIMARY KEY (hotel_id, link, checkin, checkout)` under SQLite's uniqueness
semantics (a `NULL` component never collides). -/
def pkConflict (a b : DBRow) : Bool :=
  (match a.hotel_id, b.hotel_id with
   | some x, some y => x == y
   | _, _ => false)
  && a.link == b.link && a.checkin == b.checkin && a.checkout == b.checkout

/-- `insert_listing`: `INSERT OR IGNORE INTO listings ... VALUES ...`. -/
def insertListing (r : DBRow) (store : List DBRow) : List DBRow :=
  if store.any (fun row => pkConflict row r) then store else store ++ [r]

/-- `listing_exists`: `SELECT 1 FROM listings WHERE link = ? AND checkin = ?
AND checkout = ? LIMIT 1` is non-empty. -/
def listingExists (r : DBRow) (store : List DBRow) : Bool :=
  store.any (fun row =>
    row.link == r.link && row.checkin == r.checkin && row.checkout == r.checkout)

/-- The persistence step of `bot.handle_message`: skip when `listing_exists`,
otherwise `insert_listing`. -/
def processRecord (store : List DBRow) (r : DBRow) : List DBRow :=
  if listingExists r store then store else insertListing r store

/-- No two rows of the store share the `(link, checkin, checkout)` key. -/
def KeyUnique (store : List DBRow) : Prop :=
  store.Pairwise (fun a b =>
    ¬(a.link = b.link ∧ a.checkin = b.checkin ∧ a.checkout = b.checkout))

/-! ### google_maps_service.py — `fetch_google_maps_review`

The browser session is treated as an environment of probe outcomes (the spec
places browser process lifecycle out of scope, so the model starts from the
`try:` body with a live driver).  Inside the `try:` body:
the consent-page block swallows every failure it can raise (each selector
attempt sits in its own `try/except Exception: continue`, wrapped in one more
`try/except Exception`), so it contributes nothing observable and is not given
environment state.  `driver.get` and the `readyState` wait can raise out of
the body; both are caught by the outermost `except Exception` which returns
the degraded "no match" result. -/

structure GMapsEnv where
  /-- `driver.get(search_url)` completed without raising. -/
  getOk : Bool
  /-- the `document.readyState == "complete"` wait finished within the bound. -/
  readyOk : Bool
  /-- one of the four review-container selectors matched within the bound. -/
  containerFound : Bool
  /-- score from `span span[aria-hidden]` text via `float` (`none`: element
  missing or `float` raised). -/
  scorePrimary : Option ℚ
  /-- score from the `aria-label` "... stars" fallback. -/
  scoreFallback : Option ℚ
  /-- the first review-count block itself raised, triggering the parenthesis
  fallback branch. -/
  countPrimaryRaised : Bool
  /-- count scanned from `aria-label` elements (first block). -/
  countPrimary : Option ℤ
  /-- count scanned from parenthesised text (fallback block). -/
  countParen : Option ℤ
  /-- `driver.current_url` when the widget was found. -/
  currentUrl : String
deriving DecidableEq

structure GMapsResult where
  google_review_score : Option ℚ
  google_reviews_count : Option ℤ
  google_maps_url : Option String
deriving DecidableEq

/-- UTF-8 bytes of a character. -/
def utf8Bytes (c : Char) : List ℕ :=
  let n := c.toNat
  if n < 0x80 then [n]
  else if n < 0x800 then [0xC0 + n / 64, 0x80 + n % 64]
  else if n < 0x10000 then [0xE0 + n / 4096, 0x80 + n / 64 % 64, 0x80 + n % 64]
  else [0xF0 + n / 262144, 0x80 + n / 4096 % 64, 0x80 + n / 64 % 64, 0x80 + n % 64]

/-- One output character of `urllib.parse.quote_plus` per input byte. -/
def quotePlusByte (b : ℕ) : String :=
  let isSafe :=
    (0x41 ≤ b && b ≤ 0x5A) || (0x61 ≤ b && b ≤ 0x7A) || (0x30 ≤ b && b ≤ 0x39) ||
    b = '_'.toNat || b = '.'.toNat || b = '-'.toNat || b = '~'.toNat
  let hexDigit : ℕ → Char := fun d =>
    if d < 10 then Char.ofNat ('0'.toNat + d) else Char.ofNat ('A'.toNat + d - 10)
  if isSafe then String.singleton (Char.ofNat b)
  else if b = ' '.toNat then "+"
  else String.mk ['%', hexDigit (b / 16), hexDigit (b % 16)]

/-- `urllib.parse.quote_plus(s)`. -/
def quotePlus (s : String) : String :=
  s.data.foldl (fun acc c => acc ++ (utf8Bytes c).foldl (fun a b => a ++ quotePlusByte b) "") ""

/-- `search_url = "https://www.google.com/maps/search/" + quote_plus(f"{name} {city}")`. -/
def gmapsSearchUrl (name city : String) : String :=
  "https://www.google.com/maps/search/" ++ quotePlus (name ++ " " ++ city)

/-- The all-null degraded result carrying the fallback search URL. -/
def noMatchResult (name city : String) : GMapsResult :=
  ⟨none, none, some (gmapsSearchUrl name city)⟩

/-- The `try:` body of `fetch_google_maps_review`; `Except.error ()` models an
exception escaping the body into the outermost handler. -/
def gmapsBody (name city : String) (env : GMapsEnv) : Except Unit GMapsResult :=
  if ¬env.getOk then .error ()
  else if ¬env.readyOk then .error ()
  else if ¬env.containerFound then .ok (noMatchResult name city)
  else
    let score := match env.scorePrimary with
      | some v => some v
      | none => env.scoreFallback
    let count := if env.countPrimaryRaised then env.countParen else env.countPrimary
    .ok ⟨score, count, some env.currentUrl⟩

/-- `fetch_google_maps_review`: the body with its outermost
`except Exception` handler, which degrades to the "no match" result.  The
total return type records that no exception passes the function's boundary. -/
def fetchGoogleMapsReview (name city : String) (env : GMapsEnv) : GMapsResult :=
  match gmapsBody name city env with
  | .ok r => r
  | .error _ => noMatchResult name city

/-- Strip `,` then `.` — `raw_count.replace(",", "").replace(".", "")`. -/
def stripCommaDot (cs : List Char) : String :=
  ⟨cs.filter (fun c => c ≠ ',' && c ≠ '.')⟩

/-- Characters of the class `[0-9,\.]` in the parenthesis regex. -/
def isParenClass (c : Char) : Bool := c.isDigit || c = ',' || c = '.'

/-- One attempt of `re.search(r"\(([0-9,\.]+)\)", text)` anchored at `cs`:
an opening parenthesis, a maximal class run (greedy `+` cannot backtrack
usefully since `)` is outside the class), then a closing parenthesis. -/
def matchParenAt (cs : List Char) : Option (List Char) :=
  match cs with
  | '(' :: rest =>
    let run := rest.takeWhile isParenClass
    if run.isEmpty then none
    else match rest.drop run.length with
      | ')' :: _ => some run
      | _ => none
  | _ => none

/-- Leftmost match of the parenthesised-count regex. -/
def findParen : List Char → Option (List Char)
  | [] => none
  | c :: rest =>
    match matchParenAt (c :: rest) with
    | some g => some g
    | none => findParen rest

/-- The parenthesised review-count parser of `fetch_google_maps_review`
(lines 159-169): regex group, strip separators, `int(...)`. -/
def gmapsParenCount (s : String) : Option ℤ :=
  (findParen s.data).bind (fun g => pyIntParse (stripCommaDot g))

/-! ### scraper.py — `fetch_listing`

The lookups `fetch_listing` performs against the rendered page are modelled as
an environment of outcomes; element texts carry their `.strip()`-ed value.
`Except.error` models the `RuntimeError` raised from the
`except (TimeoutException, WebDriverException)` handler as well as the
`ValueError` / `AttributeError` cases that escape it; either way the
extraction as a whole fails for the caller. -/

structure ScrapeEnv where
  /-- the `searchbox-dates-container` wait succeeded. -/
  dateBtn : Bool
  /-- text of `date-display-field-start` inside the dates button. -/
  checkinText : Option String
  /-- text of `date-display-field-end`. -/
  checkoutText : Option String
  /-- the `property-card` wait succeeded. -/
  card : Bool
  /-- the `title-link` wait succeeded. -/
  titleLink : Bool
  /-- text of the `title` element inside the title link. -/
  nameText : Option String
  /-- `title_el.get_attribute("href")` (`none` makes `.split` raise). -/
  hrefAttr : Option String
  /-- text of `address`. -/
  addressText : Option String
  /-- text of `distance`. -/
  distanceText : Option String
  /-- the `review-score-link` element was found. -/
  scoreBlock : Bool
  /-- text of the score's `div[aria-hidden]` element. -/
  scoreText : Option String
  /-- `score_block.text`, scanned for the review count. -/
  blockText : String
  /-- text of `recommended-units h4`. -/
  unitText : Option String
  /-- the `cancellation-policy-icon` element exists. -/
  cancelIcon : Bool
  /-- text of `price-for-x-nights`. -/
  nightsText : Option String
  /-- text of `price-and-discounted-price`. -/
  priceText : Option String
  /-- `driver.current_url`. -/
  currentUrl : String
  /-- `datetime.now(timezone.utc).isoformat()`. -/
  nowIso : String
deriving DecidableEq

structure Listing where
  hotel_id : Option ℤ
  name : String
  link : String
  address : String
  distance : String
  review_score : ℚ
  reviews_count : ℤ
  unit : String
  cancellation : String
  nights_adults : String
  price : String
  checkin : String
  checkout : String
  scraped_at : String
  source_url : String
deriving DecidableEq

/-- Characters of the class `[\d  ]` in the review-count regex. -/
def isCountClass (c : Char) : Bool := isReDigit c || c = ' ' || c = '\u00A0'

/-- The cue alternation `review(?:s)?|opinia|opinie|opinii` (case-insensitive):
one of the words is a prefix of the lowered remainder. -/
def cueAt (cs : List Char) : Bool :=
  let low := cs.map Char.toLower
  ["reviews", "review", "opinia", "opinie", "opinii"].any
    (fun w => w.data.isPrefixOf low)

/-- Backtracking over the greedy group length for
`([\d  ]+)\s*(?:review(?:s)?|opinia|opinie|opinii)` anchored at `cs`:
try group lengths from `k` down to `1`; after the group, `\s*` must consume the
whole whitespace run (every cue word starts with a letter). -/
def countGroupAux (cs : List Char) : ℕ → Option (List Char)
  | 0 => none
  | k + 1 =>
    let rest := cs.drop (k + 1)
    if cueAt (rest.dropWhile isReSpace) then some (cs.take (k + 1))
    else countGroupAux cs k

/-- One anchored attempt of the review-count regex: the greedy group starts
with the maximal class run. -/
def matchCountAt (cs : List Char) : Option (List Char) :=
  let run := cs.takeWhile isCountClass
  if run.isEmpty then none else countGroupAux cs run.length

/-- Leftmost match: `re.search` of the review-count regex, returning group 1. -/
def searchCount : List Char → Option (List Char)
  | [] => none
  | c :: rest =>
    match matchCountAt (c :: rest) with
    | some g => some g
    | none => searchCount rest

/-- `m.group(1).replace(" ", "").replace(" ", "")`. -/
def stripSeps (cs : List Char) : String :=
  ⟨cs.filter (fun c => c ≠ ' ' && c ≠ '\u00A0')⟩

/-- The scraper's review-count parser on a matched block text:
regex search, strip separators, `int(...)` (claim C10's first parser). -/
def scraperReviewsCount (s : String) : Option ℤ :=
  (searchCount s.data).bind (fun g => pyIntParse (stripSeps g))

/-- `link = title_el.get_attribute("href").split("?", 1)[0]`. -/
def splitBeforeQuery (href : String) : String :=
  ⟨href.data.takeWhile (fun c => c ≠ '?')⟩

/-- `price = "".join(ch for ch in raw_price if ch.isdigit() or ch in ",.")`. -/
def normalizePrice (raw : String) : String :=
  ⟨raw.data.filter (fun c => c.isDigit || c = ',' || c = '.')⟩

/-- `fetch_listing`, field by field in source order.  Every element lookup of
steps 1b-6 must succeed for the extraction to succeed; only the review count
(`0` when the regex finds nothing) and the cancellation flag (`"No"` when the
icon is absent) tolerate failure. -/
def fetchListing (env : ScrapeEnv) : Except String Listing :=
  if env.dateBtn then
    match env.checkinText with
    | none => .error "NoSuchElementException: date-display-field-start"
    | some checkin =>
    match env.checkoutText with
    | none => .error "NoSuchElementException: date-display-field-end"
    | some checkout =>
    if env.card then
      if env.titleLink then
        match env.nameText with
        | none => .error "NoSuchElementException: title"
        | some name =>
        match env.hrefAttr with
        | none => .error "AttributeError: NoneType has no attribute split"
        | some href =>
        match env.addressText with
        | none => .error "NoSuchElementException: address"
        | some address =>
        match env.distanceText with
        | none => .error "NoSuchElementException: distance"
        | some distance =>
        if env.scoreBlock then
          match env.scoreText with
          | none => .error "NoSuchElementException: score aria-hidden"
          | some scoreTxt =>
          match parsePyFloat (replaceChar scoreTxt ',' '.') with
          | none => .error "ValueError: float of review score"
          | some review_score =>
          match
            (match searchCount env.blockText.data with
             | none => some (0 : ℤ)
             | some g => pyIntParse (stripSeps g)) with
          | none => .error "ValueError: int of review count"
          | some reviews_count =>
          match env.unitText with
          | none => .error "NoSuchElementException: recommended-units h4"
          | some unit =>
          match env.nightsText with
          | none => .error "NoSuchElementException: price-for-x-nights"
          | some nights_adults =>
          match env.priceText with
          | none => .error "NoSuchElementException: price-and-discounted-price"
          | some rawPrice =>
            .ok ⟨none, name, splitBeforeQuery href, address, distance, review_score,
                 reviews_count, unit, if env.cancelIcon then "Yes" else "No",
                 nights_adults, normalizePrice rawPrice, checkin, checkout,
                 env.nowIso, env.currentUrl⟩
        else .error "NoSuchElementException: review-score-link"
      else .error "TimeoutException: title-link"
    else .error "TimeoutException: property-card"
  else .error "TimeoutException: searchbox-dates-container"

/-- Whether an `Except` computation finished without an exception. -/
def exceptIsOk {ε α : Type} : Except ε α → Bool
  | .ok _ => true
  | .error _ => false

/-! ### Helper lemmas about the weight and adjustment collapse -/

/-- The `if booking_count else 0` guard around the primary weight is the
saturating weight itself (a zero count gives weight `0` either way). -/
theorem bookingWeight_eq (r : SheetRec) :
    bookingWeight r = min ((bookingCount r : ℚ) / 100) 1 := by
  unfold bookingWeight
  split
  · rfl
  · next h =>
    simp only [ne_eq, not_not] at h
    rw [h]
    norm_num

/-- The `if google_count else 0` guard around the secondary weight is the
saturating weight itself. -/
theorem googleWeight_eq (r : SheetRec) :
    googleWeight r = min ((googleCount r : ℚ) / 200) 1 := by
  unfold googleWeight
  split
  · rfl
  · next h =>
    simp only [ne_eq, not_not] at h
    rw [h]
    norm_num

/-- `booking_score_adj` is `booking_score`. -/
theorem bookingScoreAdj_eq (r : SheetRec) : bookingScoreAdj r = bookingScore r := by
  unfold bookingScoreAdj
  split
  · rfl
  · next h =>
    simp only [ne_eq, not_not] at h
    exact h.symm

/-- `google_score_adj` is twice `google_score`. -/
theorem googleScoreAdj_eq (r : SheetRec) : googleScoreAdj r = googleScore r * 2 := by
  unfold googleScoreAdj
  split
  · rfl
  · next h =>
    simp only [ne_eq, not_not] at h
    rw [h]
    ring

/-! ### Records used as concrete inputs -/

def recC2 : SheetRec :=
  ⟨some 9, some 150, some (9/2), some 300, some "No", some "3 nights, 2 adults", some "1,234.50"⟩

def recNoScoresFree : SheetRec := ⟨none, none, none, none, some "Yes", none, none⟩

def recNoScoresNoFree : SheetRec := ⟨none, none, none, none, some "No", none, none⟩

def rec8NoBonus : SheetRec := ⟨some 8, some 50, none, none, some "No", none, none⟩

def recBonus98 : SheetRec := ⟨some (49/5), some 50, none, none, some "Yes", none, none⟩

def recClamp11 : SheetRec := ⟨some 11, some 50, none, none, some "Yes", none, none⟩

def recZeroCounts : SheetRec := ⟨some 9, some 0, some (9/2), none, some "No", none, none⟩

def recUnparseableNights : SheetRec :=
  ⟨none, none, none, none, none, some "two nights, 2 adults", some "100"⟩

/-! ### Claims about `append_row`'s derived values -/

/-- C2: when both review scores are present (nonzero) and the saturating
weights do not both vanish, the overall score is the weighted average of the
primary score (0-10 scale) and the doubled secondary score, weighted by
`min(primary_count/100, 1)` and `min(secondary_count/200, 1)`, then passed
through the clamp-and-round step (a free-cancellation bonus, absent in the
claim's instance, is added before that step). -/
theorem c2_overall_both_present (r : SheetRec)
    (hb : bookingScore r ≠ 0) (hg : googleScore r ≠ 0)
    (hw : min ((bookingCount r : ℚ) / 100) 1 + min ((googleCount r : ℚ) / 200) 1 ≠ 0) :
    overallScoreVal r = .ok (finalizeScore
      ((bookingScore r * min ((bookingCount r : ℚ) / 100) 1
        + googleScore r * 2 * min ((googleCount r : ℚ) / 200) 1)
       / (min ((bookingCount r : ℚ) / 100) 1 + min ((googleCount r : ℚ) / 200) 1)
       + (if freeCancel r then 1/2 else 0))) := by
  have hand : bookingScore r ≠ 0 ∧ googleScore r ≠ 0 := ⟨hb, hg⟩
  have hw2 : ¬(bookingWeight r + googleWeight r = 0) := by
    rw [bookingWeight_eq, googleWeight_eq]
    exact hw
  unfold overallScoreVal rawOverall
  rw [if_pos hand, if_neg hw2, bookingScoreAdj_eq, googleScoreAdj_eq,
      bookingWeight_eq, googleWeight_eq]
  rfl

/-- C2 witness: primary 9.0 with count 150, secondary 4.5 with count 300, no
cancellation bonus: the overall score is 9.0. -/
theorem c2_overall_both_present_witness : overallScoreVal recC2 = .ok 9 := by
  have h := c2_overall_both_present recC2
    (by norm_num [bookingScore, qTruthy, recC2])
    (by norm_num [googleScore, qTruthy, recC2])
    (by norm_num [bookingCount, googleCount, nTruthy, recC2])
  rw [h]
  have hf : freeCancel recC2 = false := by decide
  rw [hf]
  norm_num [bookingScore, googleScore, bookingCount, googleCount, qTruthy, nTruthy, recC2,
    finalizeScore, pyRound, roundHalfEven]

/-- C3 counterexample: a record with both scores absent but a free-cancellation
indicator gets the 0.5 bonus and is then clamped up to 1.0 — a forced in-range
value and a non-empty spreadsheet cell, not the null/zero the claim promises. -/
theorem c3_counterexample :
    overallScoreVal recNoScoresFree = .ok 1 ∧ overallCell recNoScoresFree = .ok (some 1) := by
  have hf : freeCancel recNoScoresFree = true := by decide
  have h1 : overallScoreVal recNoScoresFree = .ok 1 := by
    unfold overallScoreVal rawOverall
    rw [hf]
    norm_num [bookingScore, googleScore, qTruthy, recNoScoresFree, Except.map,
      finalizeScore, pyRound, roundHalfEven]
  refine ⟨h1, ?_⟩
  unfold overallCell
  rw [h1]
  norm_num [Except.map]

/-- C3 amended: with both scores absent the overall score is zero and the
spreadsheet cell empty only when the record carries no free-cancellation
indicator; with the indicator, the 0.5 bonus is clamped into range to 1.0. -/
theorem c3_no_scores (r : SheetRec) (hb : bookingScore r = 0) (hg : googleScore r = 0) :
    (freeCancel r = false → overallScoreVal r = .ok 0 ∧ overallCell r = .ok none) ∧
    (freeCancel r = true → overallScoreVal r = .ok 1) := by
  have hraw : rawOverall r = .ok 0 := by
    unfold rawOverall
    rw [if_neg (by rintro ⟨h, _⟩; exact h hb), if_neg (fun h => h hb), if_neg (fun h => h hg)]
  constructor
  · intro hf
    have h1 : overallScoreVal r = .ok 0 := by
      unfold overallScoreVal
      rw [hraw, hf]
      norm_num [Except.map, finalizeScore]
    refine ⟨h1, ?_⟩
    unfold overallCell
    rw [h1]
    norm_num [Except.map]
  · intro hf
    unfold overallScoreVal
    rw [hraw, hf]
    norm_num [Except.map, finalizeScore, pyRound, roundHalfEven]

/-- C3 witness: both scores absent, no free-cancellation indicator: the
overall score is zero and the cell empty. -/
theorem c3_no_scores_witness :
    overallScoreVal recNoScoresNoFree = .ok 0 ∧ overallCell recNoScoresNoFree = .ok none :=
  (c3_no_scores recNoScoresNoFree (by norm_num [bookingScore, qTruthy, recNoScoresNoFree])
    (by norm_num [googleScore, qTruthy, recNoScoresNoFree])).1 (by decide)

/-- C4: with only the primary score present, the overall score is the primary
score times 0.9, plus 0.5 when the record carries a free-cancellation
indicator, then clamped into [1, 10] and rounded to one decimal
(`finalizeScore`); in particular 9.8 with the bonus gives 9.3, and a pre-clamp
value above 10 (reachable only with an out-of-range input score, here 11) is
clamped to 10.0. -/
theorem c4_primary_only :
    (∀ r : SheetRec, bookingScore r ≠ 0 → googleScore r = 0 →
      overallScoreVal r = .ok (finalizeScore
        (bookingScore r * (9/10) + (if freeCancel r then 1/2 else 0)))) ∧
    overallScoreVal recBonus98 = .ok (93/10) ∧
    overallScoreVal recClamp11 = .ok 10 := by
  have gen : ∀ r : SheetRec, bookingScore r ≠ 0 → googleScore r = 0 →
      overallScoreVal r = .ok (finalizeScore
        (bookingScore r * (9/10) + (if freeCancel r then 1/2 else 0))) := by
    intro r hb hg
    have hnand : ¬(bookingScore r ≠ 0 ∧ googleScore r ≠ 0) := fun h => h.2 hg
    unfold overallScoreVal rawOverall
    rw [if_neg hnand, if_pos hb, bookingScoreAdj_eq]
    rfl
  refine ⟨gen, ?_, ?_⟩
  · rw [gen recBonus98 (by norm_num [bookingScore, qTruthy, recBonus98])
      (by norm_num [googleScore, qTruthy, recBonus98])]
    have hf : freeCancel recBonus98 = true := by decide
    rw [hf]
    norm_num [bookingScore, qTruthy, recBonus98, finalizeScore, pyRound, roundHalfEven]
  · rw [gen recClamp11 (by norm_num [bookingScore, qTruthy, recClamp11])
      (by norm_num [googleScore, qTruthy, recClamp11])]
    have hf : freeCancel recClamp11 = true := by decide
    rw [hf]
    norm_num [bookingScore, qTruthy, recClamp11, finalizeScore, pyRound, roundHalfEven]

/-- C4 witness: primary score 8.0, no secondary, no bonus: 8.0 × 0.9 = 7.2. -/
theorem c4_primary_only_witness : overallScoreVal rec8NoBonus = .ok (36/5) := by
  rw [c4_primary_only.1 rec8NoBonus (by norm_num [bookingScore, qTruthy, rec8NoBonus])
    (by norm_num [googleScore, qTruthy, rec8NoBonus])]
  have hf : freeCancel rec8NoBonus = false := by decide
  rw [hf]
  norm_num [bookingScore, qTruthy, rec8NoBonus, finalizeScore, pyRound, roundHalfEven]

/-- C5: a record with both review scores present (nonzero) but both review
counts zero makes both saturating weights zero, and the weighted-average
division raises an uncaught `ZeroDivisionError` — the `Except.error` branch of
the embedding is reached. -/
theorem c5_zero_weight_division :
    overallScoreVal recZeroCounts = .error () ∧
    bookingScore recZeroCounts ≠ 0 ∧ googleScore recZeroCounts ≠ 0 ∧
    bookingWeight recZeroCounts + googleWeight recZeroCounts = 0 := by
  have hb : bookingScore recZeroCounts ≠ 0 := by norm_num [bookingScore, qTruthy, recZeroCounts]
  have hg : googleScore recZeroCounts ≠ 0 := by norm_num [googleScore, qTruthy, recZeroCounts]
  have hw : bookingWeight recZeroCounts + googleWeight recZeroCounts = 0 := by
    norm_num [bookingWeight, googleWeight, bookingCount, googleCount, nTruthy, recZeroCounts]
  have hand : bookingScore recZeroCounts ≠ 0 ∧ googleScore recZeroCounts ≠ 0 := ⟨hb, hg⟩
  refine ⟨?_, hb, hg, hw⟩
  unfold overallScoreVal rawOverall
  rw [if_pos hand, if_pos hw]
  rfl

/-- C6 counterexample: a `nights_adults` string the regex cannot parse
defaults the night count to 1, and `price_per_night` is still computed from
the parsed price alone — not left null as the claim requires. -/
theorem c6_counterexample :
    parsedNights recUnparseableNights = none ∧
    pricePerNight recUnparseableNights = some 100 := by
  have hn : parsedNights recUnparseableNights = none := by decide
  have hrep : parsePyFloatRep (removeChar (recUnparseableNights.price.getD "0") ',')
      = some (false, 100, 0) := by decide
  have hp : parsePyFloat (removeChar (recUnparseableNights.price.getD "0") ',') = some 100 := by
    unfold parsePyFloat
    rw [hrep]
    norm_num
  refine ⟨hn, ?_⟩
  unfold pricePerNight
  rw [hn, hp]
  norm_num [pyRound, roundHalfEven]

/-- C6 amended: `price_per_night` is null exactly when the de-comma'd price
string fails `float(...)` or the parsed night count is zero; when
`nights_adults` cannot be parsed, the night count defaults to 1 and
`price_per_night` is still computed as the rounded price itself. -/
theorem c6_price_per_night (r : SheetRec) :
    (pricePerNight r = none ↔
       parsePyFloat (removeChar (r.price.getD "0") ',') = none ∨ parsedNights r = some 0) ∧
    (∀ p, parsedNights r = none →
       parsePyFloat (removeChar (r.price.getD "0") ',') = some p →
       pricePerNight r = some (pyRound p 2)) := by
  constructor
  · unfold pricePerNight
    cases hp : parsePyFloat (removeChar (r.price.getD "0") ',')
    · simp
    · cases hn : parsedNights r
      · simp
      · next n =>
        cases n
        · simp
        · simp
  · intro p hn hp
    unfold pricePerNight
    rw [hn, hp]
    norm_num

/-- C6 witness: the amended behaviour at the unparseable-nights record. -/
theorem c6_price_per_night_witness :
    pricePerNight recUnparseableNights = some (pyRound 100 2) :=
  (c6_price_per_night recUnparseableNights).2 100 (by decide)
    (by
      have hrep : parsePyFloatRep (removeChar (recUnparseableNights.price.getD "0") ',')
          = some (false, 100, 0) := by decide
      unfold parsePyFloat
      rw [hrep]
      norm_num)

/-! ### Claims about the persisted store -/

def rowNullId : DBRow := ⟨none, "https://www.booking.com/hotel/x.html", "Jun 1", "Jun 5"⟩

def rowPK : DBRow := ⟨some 7, "https://www.booking.com/hotel/x.html", "Jun 1", "Jun 5"⟩

def rowA : DBRow := ⟨none, "https://www.booking.com/hotel/x.html", "Jun 1", "Jun 5"⟩

def rowB : DBRow := ⟨none, "https://www.booking.com/hotel/x.html", "Jul 2", "Jul 6"⟩

/-- C1 counterexample: the table's primary key is `(hotel_id, link, checkin,
checkout)` and the scraper always emits a null `hotel_id`, which in SQLite
never collides; inserting the very same record twice therefore leaves two
rows with an identical `(link, checkin, checkout)` key even though that key
already identified a persisted row — `insert_listing` is not the claimed
no-op. -/
theorem c1_counterexample :
    listingExists rowNullId (insertListing rowNullId []) = true ∧
    (insertListing rowNullId (insertListing rowNullId [])).length = 2 := by
  decide

/-- C1 amended: `insert_listing` is a silent no-op only when an existing row
matches the full primary key with a non-null `hotel_id`; uniqueness of the
`(link, checkin, checkout)` key is maintained not by the insert but by the
`listing_exists` guard of `handle_message`, which preserves the
one-row-per-key invariant of the store. -/
theorem c1_insert_or_ignore :
    (∀ (r : DBRow) (s : List DBRow), (∃ row ∈ s, pkConflict row r = true) →
       insertListing r s = s) ∧
    (∀ (s : List DBRow) (r : DBRow), KeyUnique s → KeyUnique (processRecord s r)) := by
  constructor
  · intro r s h
    unfold insertListing
    rw [if_pos (List.any_eq_true.mpr (by simpa using h))]
  · intro s r hu
    unfold processRecord
    by_cases he : listingExists r s = true
    · rw [if_pos he]
      exact hu
    · rw [if_neg he]
      unfold insertListing
      by_cases hc : s.any (fun row => pkConflict row r) = true
      · rw [if_pos hc]
        exact hu
      · rw [if_neg hc]
        unfold KeyUnique
        rw [List.pairwise_append]
        refine ⟨hu, List.pairwise_singleton _ _, ?_⟩
        intro a ha b hb
        simp only [List.mem_singleton] at hb
        subst hb
        intro ⟨h1, h2, h3⟩
        apply he
        unfold listingExists
        rw [List.any_eq_true]
        exact ⟨a, ha, by simp [h1, h2, h3]⟩

/-- C1 witness: on a full primary-key collision (non-null `hotel_id`) the
insert is a no-op. -/
theorem c1_insert_or_ignore_witness : insertListing rowPK [rowPK] = [rowPK] :=
  c1_insert_or_ignore.1 rowPK [rowPK] (by decide)

/-- C7: `listing_exists` is true exactly when some persisted row agrees with
the candidate on link, checkin and checkout; and two records with the same
link but different dates are not duplicates of each other — pushed through the
guarded pipeline they persist as two separate rows. -/
theorem c7_listing_exists :
    (∀ (r : DBRow) (s : List DBRow), listingExists r s = true ↔
       ∃ row ∈ s, row.link = r.link ∧ row.checkin = r.checkin ∧ row.checkout = r.checkout) ∧
    (∀ r1 r2 : DBRow, r1.link = r2.link → r1.checkin ≠ r2.checkin →
       processRecord (processRecord [] r1) r2 = [r1, r2]) := by
  constructor
  · intro r s
    unfold listingExists
    rw [List.any_eq_true]
    constructor
    · rintro ⟨row, hm, hp⟩
      simp only [Bool.and_eq_true, beq_iff_eq] at hp
      exact ⟨row, hm, hp.1.1, hp.1.2, hp.2⟩
    · rintro ⟨row, hm, h1, h2, h3⟩
      exact ⟨row, hm, by simp [h1, h2, h3]⟩
  · intro r1 r2 hl hc
    have h1 : processRecord [] r1 = [r1] := by
      unfold processRecord listingExists insertListing
      simp
    rw [h1]
    have he : listingExists r2 [r1] = false := by
      unfold listingExists
      simp [hl, hc]
    have hcf : pkConflict r1 r2 = false := by
      unfold pkConflict
      simp [hc]
    unfold processRecord
    rw [he]
    simp only [Bool.false_eq_true, if_false]
    unfold insertListing
    simp [hcf]

/-- C7 witness: same link, different stay dates — both rows persist. -/
theorem c7_listing_exists_witness :
    processRecord (processRecord [] rowA) rowB = [rowA, rowB] :=
  c7_listing_exists.2 rowA rowB (by decide) (by decide)

/-! ### Claims about the secondary rating lookup -/

/-- C8: `fetch_google_maps_review` returns a result for every environment (the
return type of the embedding is the plain result type: the outermost handler
catches everything the body can raise); whenever no rating widget is found or
the body fails internally, the result has a null score, a null count, and the
non-null fallback search URL. -/
theorem c8_lookup_degradation (name city : String) (env : GMapsEnv)
    (h : env.containerFound = false ∨ gmapsBody name city env = .error ()) :
    (fetchGoogleMapsReview name city env).google_review_score = none ∧
    (fetchGoogleMapsReview name city env).google_reviews_count = none ∧
    (fetchGoogleMapsReview name city env).google_maps_url = some (gmapsSearchUrl name city) := by
  have hres : fetchGoogleMapsReview name city env = noMatchResult name city := by
    rcases h with h | h
    · unfold fetchGoogleMapsReview gmapsBody
      rcases hg : env.getOk <;> rcases hr : env.readyOk <;> simp [h]
    · unfold fetchGoogleMapsReview
      rw [h]
  rw [hres]
  exact ⟨rfl, rfl, rfl⟩

def envNoWidget : GMapsEnv := ⟨true, true, false, none, none, false, none, none, "u"⟩

/-- C8 witness: a live session whose four container selectors all fail
degrades to the all-null result with the concrete fallback search URL. -/
theorem c8_lookup_degradation_witness :
    (fetchGoogleMapsReview "h" "c" envNoWidget).google_review_score = none ∧
    (fetchGoogleMapsReview "h" "c" envNoWidget).google_reviews_count = none ∧
    (fetchGoogleMapsReview "h" "c" envNoWidget).google_maps_url =
      some "https://www.google.com/maps/search/h+c" := by
  obtain ⟨h1, h2, h3⟩ := c8_lookup_degradation "h" "c" envNoWidget (Or.inl rfl)
  exact ⟨h1, h2, h3.trans (by decide)⟩

/-! ### Claims about the field extractor -/

/-- C9 amended, as a full characterization: the extraction succeeds exactly
when every one of the looked-up fields — the dates container and both date
texts, the property card, the title link, name, link href, address, distance,
the review-score block and a parseable score text, a non-poisonous review
count, unit, nights/adults and price — is located; not merely name, link and
price.  Only the review count (`0` when the regex finds nothing) and the
cancellation flag tolerate absence. -/
theorem c9_required_fields (env : ScrapeEnv) :
    exceptIsOk (fetchListing env) =
      (env.dateBtn && env.checkinText.isSome && env.checkoutText.isSome && env.card &&
       env.titleLink && env.nameText.isSome && env.hrefAttr.isSome && env.addressText.isSome &&
       env.distanceText.isSome && env.scoreBlock &&
       (match env.scoreText with
        | none => false
        | some t => (parsePyFloat (replaceChar t ',' '.')).isSome) &&
       (match searchCount env.blockText.data with
        | none => true
        | some g => (pyIntParse (stripSeps g)).isSome) &&
       env.unitText.isSome && env.nightsText.isSome && env.priceText.isSome) := by
  obtain ⟨db, ci, co, cd, tl, nm, hr, ad, di, sb, st, bt, ut, ic, nt, pt, cu, nw⟩ := env
  cases db
  · simp [fetchListing, exceptIsOk]
  cases ci
  · simp [fetchListing, exceptIsOk]
  cases co
  · simp [fetchListing, exceptIsOk]
  cases cd
  · simp [fetchListing, exceptIsOk]
  cases tl
  · simp [fetchListing, exceptIsOk]
  cases nm
  · simp [fetchListing, exceptIsOk]
  cases hr
  · simp [fetchListing, exceptIsOk]
  cases ad
  · simp [fetchListing, exceptIsOk]
  cases di
  · simp [fetchListing, exceptIsOk]
  cases sb
  · simp [fetchListing, exceptIsOk]
  cases st
  · simp [fetchListing, exceptIsOk]
  next t =>
  cases hp : parsePyFloat (replaceChar t ',' '.')
  · simp [fetchListing, exceptIsOk, hp]
  cases hc : searchCount bt.data
  · cases ut
    · simp [fetchListing, exceptIsOk, hp, hc]
    cases nt
    · simp [fetchListing, exceptIsOk, hp, hc]
    cases pt
    · simp [fetchListing, exceptIsOk, hp, hc]
    simp [fetchListing, exceptIsOk, hp, hc]
  next g =>
  cases hip : pyIntParse (stripSeps g)
  · simp [fetchListing, exceptIsOk, hp, hc, hip]
  cases ut
  · simp [fetchListing, exceptIsOk, hp, hc, hip]
  cases nt
  · simp [fetchListing, exceptIsOk, hp, hc, hip]
  cases pt
  · simp [fetchListing, exceptIsOk, hp, hc, hip]
  simp [fetchListing, exceptIsOk, hp, hc, hip]

/-- A page where only the address lookup fails: name, link and price are all
present. -/
def envNoAddress : ScrapeEnv :=
  ⟨true, some "Jun 1", some "Jun 5", true, true, some "Hotel H",
   some "https://www.booking.com/hotel/h.html?aid=1", none, some "1 km", true,
   some "8,5", "Scored 8.5 29 reviews", some "Double Room", false,
   some "3 nights, 2 adults", some "€ 1,234.50", "https://final", "2026-01-01T00:00:00"⟩

/-- C9 counterexample: the address is an optional field under the claim, yet
its lookup failure makes the whole extraction fail even though name, link and
price are all locatable — the extraction does not succeed with a null field. -/
theorem c9_counterexample :
    exceptIsOk (fetchListing envNoAddress) = false ∧
    envNoAddress.nameText.isSome = true ∧ envNoAddress.hrefAttr.isSome = true ∧
    envNoAddress.priceText.isSome = true ∧ envNoAddress.addressText = none := by
  decide

/-- C10: the scraper's review-count parser reads the label "1 222 reviews"
written with a non-breaking-space thousands separator as the integer 1222, and
the map service's parenthesised fallback parser reads "(1,222)" as 1222 — in
both cases a numeric token adjacent to the cue is matched and the separators
stripped before `int(...)`. -/
theorem c10_count_locale_parsing :
    scraperReviewsCount "1\u00A0222 reviews" = some 1222 ∧
    gmapsParenCount "(1,222)" = some 1222 := by
  decide
